import Mathlib

/-!
Verification of the Vampire tool adapter (`benchexec/tools/vampire.py`).

We shallowly embed the adapter's pure logic: command-line construction
(`cmdline`), SZS-status extraction (`get_szs_status`), termination-reason
extraction (`get_other_termination_reasons`), run classification
(`determine_result`) and the statistic-value extractor
(`get_value_from_output`).  Python strings are modelled by Lean `String`
(operating on `String.data` character lists, which matches Python's
character-indexed semantics), Python `None`-able values by `Option`, and the
`assert` in `cmdline` by an `Option` result (`none` = assertion failure).
-/

namespace Vampire

/-- The whitespace characters recognised by Python's `str.split()` with no
argument (space, tab, newline, carriage return, vertical tab, form feed). -/
def pyIsSpace (c : Char) : Bool :=
  c = ' ' || c = '\t' || c = '\n' || c = '\r' || c = '\x0b' || c = '\x0c'

/-- Helper for `pySplit`: scans the character list, accumulating the current
word (in reverse) in `acc`; words are emitted at whitespace boundaries and at
the end of input, and empty words are never emitted — exactly Python's
`str.split()` with no separator argument. -/
def splitWords : List Char → List Char → List String
  | [], acc => if acc.isEmpty then [] else [⟨acc.reverse⟩]
  | c :: cs, acc =>
    if pyIsSpace c then
      if acc.isEmpty then splitWords cs [] else ⟨acc.reverse⟩ :: splitWords cs []
    else
      splitWords cs (c :: acc)

/-- Python's `str.split()` (no arguments): split on runs of whitespace,
discarding empty tokens. -/
def pySplit (s : String) : List String := splitWords s.data []

/-- Python's `str.startswith(p)`: `p` is a character-wise initial segment of
`s`. -/
def pyStartsWith (s p : String) : Bool := List.isPrefixOf p.data s.data

/-- Python's slicing `s[n:]` (drop the first `n` characters). -/
def pyDrop (s : String) (n : Nat) : String := ⟨s.data.drop n⟩

/-- Python's truthiness test `x or d` for an optional string `x`: the empty
string and `None` are falsy and give `d`, any other string is returned. -/
def pyOrElse (x : Option String) (d : String) : String :=
  match x with
  | none => d
  | some s => if s = "" then d else s

/-- Loop of `Tool.get_szs_status` (vampire.py lines 170-179): `st` is the
`status` accumulator, initially `None`.  On a line starting with
`"% SZS status"`: if no status has been recorded yet, record the 4th
whitespace-delimited token when the line has at least 4 tokens (and `None`
otherwise); if a status has already been recorded, return `None` immediately
("More than one SZS status => this is an error!"). -/
def szsLoop : Option String → List String → Option String
  | st, [] => st
  | st, line :: rest =>
    if pyStartsWith line "% SZS status" then
      match st with
      | none =>
        let words := pySplit line
        szsLoop (if 4 ≤ words.length then words.get? 3 else none) rest
      | some _ => none
    else
      szsLoop st rest

/-- Embedding of `Tool.get_szs_status` (vampire.py lines 164-179): extract the SZS status
from the output lines, `none` if no unique SZS status was found. -/
def get_szs_status (output : List String) : Option String :=
  szsLoop none output

/-- Embedding of `Tool.get_other_termination_reasons` (vampire.py lines 181-192): collect,
in order, the remainders of all lines starting with
`"% Termination reason: "`. -/
def get_other_termination_reasons : List String → List String
  | [] => []
  | line :: rest =>
    if pyStartsWith line "% Termination reason: " then
      pyDrop line ("% Termination reason: ".length) :: get_other_termination_reasons rest
    else
      get_other_termination_reasons rest

/-- Modelled from the spec: `ResourceLimits` (class of the external harness,
not under `src/`) carries an optional wall-clock timeout in seconds and an
optional memory ceiling in bytes. -/
structure ResourceLimits where
  walltime : Option Nat
  memory : Option Nat
deriving DecidableEq

/-- Modelled from the spec: a `Task` supplies the ordered list of input file
paths. -/
structure Task where
  input_files : List String
deriving DecidableEq

/-- Time-limit step of `Tool.cmdline` (vampire.py lines 90-96): if neither
`"-t"` nor `"--time_limit"` occurs among the options, append `["-t", "0"]`
when no wall-clock limit was requested (0 means unlimited for Vampire) and
`["-t", f"{walltime}s"]` otherwise. -/
def timeStep (options : List String) (rlimits : ResourceLimits) : List String :=
  if options.contains "-t" = false ∧ options.contains "--time_limit" = false then
    match rlimits.walltime with
    | none => options ++ ["-t", "0"]
    | some w => options ++ ["-t", toString w ++ "s"]
  else
    options

/-- Fuelled floor of the base-2 logarithm; `floorLog2` gives it enough fuel
for any value relevant to the double-precision model below. -/
def log2Loop : Nat → Nat → Nat
  | 0, _ => 0
  | fuel + 1, n => if 2 ≤ n then log2Loop fuel (n / 2) + 1 else 0

/-- Floor of the base-2 logarithm, total and kernel-computable.  The fuel
1200 is enough for every `n < 2 ^ 1200`, far beyond the range of
double-precision floats (Python float division overflows near `2 ^ 1024`). -/
def floorLog2 (n : Nat) : Nat := log2Loop 1200 n

/-- Round a natural number to 53 significant bits, ties to even — the value
of the IEEE-754 double nearest to `a` (for `a` in the double range).  Used to
model Python's true division of a large `int` by a power of two. -/
def rn53 (a : Nat) : Nat :=
  if a < 2 ^ 53 then a
  else
    let k := floorLog2 a + 1 - 53
    let q := a / 2 ^ k
    let r := a % 2 ^ k
    let half := 2 ^ (k - 1)
    if half < r ∨ (r = half ∧ q % 2 = 1) then (q + 1) * 2 ^ k else q * 2 ^ k

/-- Python's `int(memory / (1024 * 1024))` for a nonnegative integer number
of bytes (vampire.py line 105).  Python's `/` is true division producing an
IEEE-754 double: the correctly rounded quotient is `rn53 memory / 2 ^ 20`
because dividing by the exact power of two `2 ^ 20` only shifts the exponent,
and `int` then truncates towards zero.  The model is exact for every
`memory < 2 ^ 1024` (beyond which Python raises `OverflowError`). -/
def pyMemoryMb (memory : Nat) : Nat := rn53 memory / (1024 * 1024)

/-- Memory-limit step of `Tool.cmdline` (vampire.py lines 98-106): if neither
`"-m"` nor `"--memory_limit"` occurs among the options and a memory ceiling
was requested, append `["-m", f"{int(memory / (1024*1024))}"]` (Vampire takes
the value in MiB); otherwise append nothing. -/
def memStep (options : List String) (rlimits : ResourceLimits) : List String :=
  if options.contains "-m" = false ∧ options.contains "--memory_limit" = false then
    match rlimits.memory with
    | none => options
    | some m => options ++ ["-m", toString (pyMemoryMb m)]
  else
    options

/-- Embedding of `Tool.cmdline` (vampire.py lines 72-109): assert at most one input file
(`none` models the `AssertionError`), apply the time-limit and memory-limit
steps to the options in that order, and return
`[executable, *options, *task.input_files]`. -/
def cmdline (executable : String) (options : List String) (task : Task)
    (rlimits : ResourceLimits) : Option (List String) :=
  if task.input_files.length ≤ 1 then
    some ([executable] ++ memStep (timeStep options rlimits) rlimits ++ task.input_files)
  else
    none

/-- SZS status values on which Vampire proved the conjecture
(vampire.py line 160). -/
def SZS_UNSAT : List String := ["ContradictoryAxioms", "Theorem", "Unsatisfiable"]

/-- SZS status values on which Vampire found a (counter-)model
(vampire.py line 161). -/
def SZS_SAT : List String := ["CounterSatisfiable", "Satisfiable"]

/-- SZS status values on which Vampire gave up (vampire.py line 162). -/
def SZS_FAIL : List String := ["Timeout", "GaveUp", "User"]

/-- Modelled from the spec: `benchexec.result.RESULT_ERROR` (module not under
`src/`); the claims depend only on it being a fixed constant. -/
def RESULT_ERROR : String := "ERROR"

/-- Modelled from the spec: `benchexec.result.RESULT_TRUE_PROP` (module not
under `src/`); the claims depend only on it being a fixed constant. -/
def RESULT_TRUE_PROP : String := "true"

/-- Modelled from the spec: `benchexec.result.RESULT_FALSE_PROP` (module not
under `src/`); the claims depend only on it being a fixed constant. -/
def RESULT_FALSE_PROP : String := "false"

/-- Modelled from the spec: `benchexec.result.RESULT_UNKNOWN` (module not
under `src/`); the claims depend only on it being a fixed constant. -/
def RESULT_UNKNOWN : String := "unknown"

/-- Modelled from the spec: a run record supplies the exit code — absent, or
present with a numeric value — and the output as a re-iterable sequence of
lines. -/
structure Run where
  exitCode : Option Int
  output : List String
deriving DecidableEq

/-- Modelled from the spec: Python's truthiness of `run.exit_code`
(`if run.exit_code:`) — an absent exit code and a zero exit value are falsy
(the run "exited normally"), a nonzero value is truthy (abnormal/failure
exit). -/
def exitTruthy : Option Int → Bool
  | none => false
  | some v => v ≠ 0

/-- Python's `"\n".join(lines)`, as a character list. -/
def joinLines : List String → List Char
  | [] => []
  | [l] => l.data
  | l :: l2 :: rest => l.data ++ '\n' :: joinLines (l2 :: rest)

/-- Modelled from the spec: the `.text` accessor of a `RunOutput` — the whole
output as one string, i.e. the lines joined by newlines — used for
whole-output prefix checks. -/
def outputText (output : List String) : String := ⟨joinLines output⟩

/-- Python's `status in lst` where `status` may be `None` (which is in no
list of strings). -/
def pyMem (status : Option String) (lst : List String) : Bool :=
  match status with
  | none => false
  | some s => lst.contains s

/-- Embedding of `Tool.determine_result` (vampire.py lines 111-157): classify a run from
its exit code and output. -/
def determine_result (run : Run) : String :=
  let status := get_szs_status run.output
  if exitTruthy run.exitCode then
    if status = some "Timeout" then "TIMEOUT"
    else if run.exitCode = some 4 ∧ pyStartsWith (outputText run.output) "Parsing error" then
      "Parsing error"
    else if run.exitCode = some 1 ∧
        get_other_termination_reasons run.output = ["Time limit"] then
      "TIMEOUT"
    else if run.exitCode = some 1 ∧
        get_other_termination_reasons run.output
          = ["Refutation not found, incomplete strategy"] then
      "Incomplete"
    else if run.exitCode = some 1 ∧
        get_other_termination_reasons run.output
          = ["Refutation not found, non-redundant clauses discarded"] then
      "Incomplete"
    else
      RESULT_ERROR
  else
    if pyMem status SZS_UNSAT then RESULT_TRUE_PROP
    else if pyMem status SZS_SAT then RESULT_FALSE_PROP
    else RESULT_UNKNOWN

/-- Embedding of `Tool.get_value_from_output` (vampire.py lines 194-214): for identifier
`"szs-status"` return `get_szs_status(output) or "--"`; any other identifier
falls off the end of the Python function (implicit `None`); the diagnostic
`print` is an I/O side effect with no bearing on the returned value. -/
def get_value_from_output (output : List String) (identifier : String) : Option String :=
  if identifier = "szs-status" then
    some (pyOrElse (get_szs_status output) "--")
  else
    none

/-! Section: Helper lemmas -/

/-- Every word emitted by `splitWords` is nonempty. -/
theorem splitWords_ne_empty :
    ∀ (cs acc : List Char), ∀ s ∈ splitWords cs acc, s ≠ "" := by
  intro cs
  induction cs with
  | nil =>
    intro acc s hs
    by_cases h : acc.isEmpty
    · simp [splitWords, h] at hs
    · simp [splitWords, h] at hs
      subst hs
      intro hcon
      have hd : acc.reverse = ([] : List Char) := congrArg String.data hcon
      have : acc = [] := by simpa using hd
      simp [this] at h
  | cons c cs ih =>
    intro acc s hs
    by_cases hc : pyIsSpace c
    · by_cases h : acc.isEmpty
      · simp [splitWords, hc, h] at hs
        exact ih [] s hs
      · simp [splitWords, hc, h] at hs
        rcases hs with hs | hs
        · subst hs
          intro hcon
          have hd : acc.reverse = ([] : List Char) := congrArg String.data hcon
          have : acc = [] := by simpa using hd
          simp [this] at h
        · exact ih [] s hs
    · simp [splitWords, hc] at hs
      exact ih (c :: acc) s hs

/-- Every token produced by `pySplit` is nonempty (Python `str.split()` drops
empty tokens). -/
theorem pySplit_ne_empty (s : String) : ∀ t ∈ pySplit s, t ≠ "" :=
  splitWords_ne_empty s.data []

/-- Once a status has been recorded, any further matching line makes
`szsLoop` return `none`. -/
theorem szsLoop_some_eq_none (s : String) (lines : List String)
    (h : 1 ≤ (lines.filter fun l => pyStartsWith l "% SZS status").length) :
    szsLoop (some s) lines = none := by
  induction lines with
  | nil => simp at h
  | cons l rest ih =>
    by_cases hl : pyStartsWith l "% SZS status"
    · simp [szsLoop, hl]
    · simp only [List.filter_cons, hl, if_false, Bool.false_eq_true] at h
      simpa [szsLoop, hl] using ih h

/-- If `szsLoop` returns a status, it is the recorded status or a token of a
matching line; in either case it is nonempty when the recorded one is. -/
theorem szsLoop_ne_empty (lines : List String) :
    ∀ (st : Option String), (∀ t, st = some t → t ≠ "") →
      ∀ s, szsLoop st lines = some s → s ≠ "" := by
  induction lines with
  | nil =>
    intro st hst s hs
    exact hst s (by simpa [szsLoop] using hs)
  | cons l rest ih =>
    intro st hst s hs
    by_cases hl : pyStartsWith l "% SZS status"
    · match st with
      | some t => simp [szsLoop, hl] at hs
      | none =>
        simp only [szsLoop, hl, if_true] at hs
        refine ih _ ?_ s hs
        intro t ht
        by_cases hlen : 4 ≤ (pySplit l).length
        · simp only [hlen, if_true] at ht
          exact pySplit_ne_empty l t (List.get?_mem ht)
        · simp [hlen] at ht
    · simp only [szsLoop, hl, if_false, Bool.false_eq_true] at hs
      exact ih st hst s hs

/-- A status extracted by `get_szs_status` is never the empty string. -/
theorem get_szs_status_ne_empty (output : List String) (s : String)
    (h : get_szs_status output = some s) : s ≠ "" :=
  szsLoop_ne_empty output none (by intro t ht; cases ht) s h

/-! Section: Claim C1 -/

/-- Claim C1, counterexample: the output below contains two lines starting
with `"% SZS status"`, yet `get_szs_status` does not return `none` — the
first matching line is malformed (only 3 tokens), so it records no status,
and the second matching line then still records `"Theorem"`.  This refutes
the claim that two or more matching lines yield `none` regardless of their
well-formedness. -/
theorem szs_status_two_lines_counterexample :
    2 ≤ ((["% SZS status", "% SZS status Theorem for foo"]).filter
          fun l => pyStartsWith l "% SZS status").length ∧
    get_szs_status ["% SZS status", "% SZS status Theorem for foo"]
      = some "Theorem" := by
  constructor
  · decide
  · decide

/-- Claim C1 (amended): if the output contains two or more lines starting
with `"% SZS status"` and the first such line is well-formed (at least 4
whitespace-delimited tokens), then `get_szs_status` returns `none`.  (A
malformed matching line records no status, so a later matching line can
still yield a status; ambiguity is detected only once a status has actually
been recorded.) -/
theorem szs_status_ambiguous_amended (lines : List String)
    (h2 : 2 ≤ (lines.filter fun l => pyStartsWith l "% SZS status").length)
    (hw : 4 ≤ (pySplit ((lines.filter fun l => pyStartsWith l "% SZS status").headD "")).length) :
    get_szs_status lines = none := by
  unfold get_szs_status
  induction lines with
  | nil => simp at h2
  | cons l rest ih =>
    by_cases hl : pyStartsWith l "% SZS status"
    · simp only [List.filter_cons, hl, if_true, List.length_cons, List.headD_cons] at h2 hw
      have h1 : 1 ≤ (rest.filter fun l => pyStartsWith l "% SZS status").length := by
        omega
      obtain ⟨t, ht⟩ : ∃ t, (pySplit l).get? 3 = some t := by
        have h3 : 3 < (pySplit l).length := by omega
        exact ⟨(pySplit l).get ⟨3, h3⟩, List.get?_eq_get h3⟩
      simp only [szsLoop, hl, if_true, hw, ht]
      exact szsLoop_some_eq_none t rest h1
    · simp only [List.filter_cons, hl, if_false, Bool.false_eq_true] at h2 hw
      simpa [szsLoop, hl] using ih h2 hw

/-- Claim C1 witness: two well-formed SZS status lines make the extraction
return `none`. -/
theorem szs_status_ambiguous_amended_witness :
    2 ≤ ((["% SZS status Theorem for x", "% SZS status GaveUp for x"]).filter
          fun l => pyStartsWith l "% SZS status").length ∧
    get_szs_status ["% SZS status Theorem for x", "% SZS status GaveUp for x"]
      = none :=
  ⟨by decide, szs_status_ambiguous_amended _ (by decide) (by decide)⟩

/-! Section: Command-line construction lemmas -/

/-- A decimal numeral followed by `"s"` is never a string ending in a
character other than `'s'`. -/
theorem toString_append_s_ne (w : Nat) (t : String)
    (ht : t.data.getLast? ≠ some 's') : toString w ++ "s" ≠ t := by
  intro h
  apply ht
  rw [← h]
  have hd : (toString w ++ "s").data = (toString w).data ++ ['s'] := by
    simp [String.data_append]
  rw [hd, List.getLast?_concat]

/-- If the options already mention `"-t"` or `"--time_limit"`, the time step
leaves them unchanged. -/
theorem timeStep_no_time (opts : List String) (r : ResourceLimits)
    (h : opts.contains "-t" = true ∨ opts.contains "--time_limit" = true) :
    timeStep opts r = opts := by
  unfold timeStep
  rcases h with h | h
  · have h' : "-t" ∈ opts := by simpa using h
    rw [if_neg (by simp [h'])]
  · have h' : "--time_limit" ∈ opts := by simpa using h
    rw [if_neg (by simp [h'])]

/-- Without `"-t"`/`"--time_limit"` and without a wall-clock limit, the time
step appends `["-t", "0"]`. -/
theorem timeStep_none (opts : List String) (r : ResourceLimits)
    (h1 : opts.contains "-t" = false) (h2 : opts.contains "--time_limit" = false)
    (hw : r.walltime = none) : timeStep opts r = opts ++ ["-t", "0"] := by
  unfold timeStep
  rw [if_pos ⟨h1, h2⟩, hw]

/-- Without `"-t"`/`"--time_limit"` and with wall-clock limit `w`, the time
step appends `["-t", "<w>s"]`. -/
theorem timeStep_some (opts : List String) (r : ResourceLimits) (w : Nat)
    (h1 : opts.contains "-t" = false) (h2 : opts.contains "--time_limit" = false)
    (hw : r.walltime = some w) : timeStep opts r = opts ++ ["-t", toString w ++ "s"] := by
  unfold timeStep
  rw [if_pos ⟨h1, h2⟩, hw]

/-- With a memory ceiling of `m` bytes and neither `"-m"` nor
`"--memory_limit"` among the options, the memory step appends
`["-m", str(int(m / 2^20))]`. -/
theorem memStep_some (opts : List String) (r : ResourceLimits) (m : Nat)
    (h1 : opts.contains "-m" = false) (h2 : opts.contains "--memory_limit" = false)
    (hm : r.memory = some m) :
    memStep opts r = opts ++ ["-m", toString (pyMemoryMb m)] := by
  unfold memStep
  rw [if_pos ⟨h1, h2⟩, hm]

/-- Tokens added by the time step can never be `"-m"` or `"--memory_limit"`,
so absence of those options is preserved. -/
theorem timeStep_contains_eq_false (opts : List String) (r : ResourceLimits)
    (x : String) (hx : opts.contains x = false) (hxt : x ≠ "-t") (hx0 : x ≠ "0")
    (hxs : ∀ w : Nat, x ≠ toString w ++ "s") :
    (timeStep opts r).contains x = false := by
  have h' : x ∉ opts := by simpa using hx
  unfold timeStep
  split_ifs with hc
  · rcases hw : r.walltime with _ | w
    · simp [List.mem_append, h', hxt, hx0]
    · simp [List.mem_append, h', hxt, hxs w]
  · exact hx

/-- Values below `2 ^ 53` are exactly representable as doubles. -/
theorem rn53_small (m : Nat) (h : m < 2 ^ 53) : rn53 m = m := by
  unfold rn53
  rw [if_pos h]

/-- For memory ceilings below `2 ^ 53` bytes, Python's
`int(m / (1024 * 1024))` agrees with the floor division `m // 1048576`. -/
theorem pyMemoryMb_small (m : Nat) (h : m < 2 ^ 53) :
    pyMemoryMb m = m / 1048576 := by
  unfold pyMemoryMb
  rw [rn53_small m h]

/-- The time step appends a (possibly empty) block of tokens of a fixed
shape at the end of the options. -/
theorem timeStep_append (opts : List String) (r : ResourceLimits) :
    ∃ a, timeStep opts r = opts ++ a ∧
      (a = [] ∨ a = ["-t", "0"] ∨
        ∃ w, r.walltime = some w ∧ a = ["-t", toString w ++ "s"]) := by
  unfold timeStep
  split_ifs with hc
  · rcases hw : r.walltime with _ | w
    · exact ⟨["-t", "0"], rfl, Or.inr (Or.inl rfl)⟩
    · exact ⟨["-t", toString w ++ "s"], rfl, Or.inr (Or.inr ⟨w, rfl, rfl⟩)⟩
  · exact ⟨[], by simp, Or.inl rfl⟩

/-- The memory step appends a (possibly empty) block of tokens of a fixed
shape at the end of the options. -/
theorem memStep_append (opts : List String) (r : ResourceLimits) :
    ∃ b, memStep opts r = opts ++ b ∧
      (b = [] ∨ ∃ m, r.memory = some m ∧ b = ["-m", toString (pyMemoryMb m)]) := by
  unfold memStep
  split_ifs with hc
  · rcases hm : r.memory with _ | m
    · exact ⟨[], by simp, Or.inl rfl⟩
    · exact ⟨["-m", toString (pyMemoryMb m)], rfl, Or.inr ⟨m, rfl, rfl⟩⟩
  · exact ⟨[], by simp, Or.inl rfl⟩

/-! Section: Claim C2 -/

/-- Claim C2, counterexample: for the memory ceiling `2 ^ 73 + 2 ^ 20` bytes
(with no `"-m"`/`"--memory_limit"` among the options), `cmdline` appends
`"-m", "9007199254740992"` — the result of Python's double-precision
`int(m / 1048576)` — while the floor division `m // 1048576` claimed by the
spec is `9007199254740993`. -/
theorem memory_floor_div_counterexample :
    cmdline "vampire" ["-t", "0"] ⟨[]⟩ ⟨none, some (2 ^ 73 + 2 ^ 20)⟩
      = some ["vampire", "-t", "0", "-m", "9007199254740992"] ∧
    (2 ^ 73 + 2 ^ 20) / 1048576 = 9007199254740993 := by
  constructor
  · decide
  · decide

/-- Claim C2 (amended): if the options contain neither `"-m"` nor
`"--memory_limit"` and a memory ceiling of `m` bytes was requested, `cmdline`
appends the two tokens `"-m"` and the decimal string of Python's
`int(m / 1048576)` computed in double precision; for `m < 2 ^ 53` (so in
particular for `m = 2 * 1024 ^ 3`, giving `"2048"`) this is exactly the
floor division `m // 1048576`. -/
theorem memory_limit_mebibytes_amended (exe : String) (opts : List String)
    (t : Task) (r : ResourceLimits) (m : Nat)
    (h1 : opts.contains "-m" = false) (h2 : opts.contains "--memory_limit" = false)
    (hm : r.memory = some m) (hsmall : m < 2 ^ 53) (hf : t.input_files.length ≤ 1) :
    cmdline exe opts t r
      = some ([exe] ++ timeStep opts r ++ ["-m", toString (m / 1048576)] ++ t.input_files) := by
  have hc1 : (timeStep opts r).contains "-m" = false :=
    timeStep_contains_eq_false opts r "-m" h1 (by decide) (by decide)
      (fun w => (toString_append_s_ne w "-m" (by decide)).symm)
  have hc2 : (timeStep opts r).contains "--memory_limit" = false :=
    timeStep_contains_eq_false opts r "--memory_limit" h2 (by decide) (by decide)
      (fun w => (toString_append_s_ne w "--memory_limit" (by decide)).symm)
  unfold cmdline
  rw [if_pos hf, memStep_some _ _ m hc1 hc2 hm, pyMemoryMb_small m hsmall]
  simp [List.append_assoc]

/-- Claim C2 witness: the 2-GiB ceiling of the claim yields the appended
tokens `"-m", "2048"`. -/
theorem memory_limit_mebibytes_amended_witness :
    cmdline "vampire" [] ⟨[]⟩ ⟨none, some (2 * 1024 ^ 3)⟩
      = some ["vampire", "-t", "0", "-m", "2048"] :=
  (memory_limit_mebibytes_amended "vampire" [] ⟨[]⟩ ⟨none, some (2 * 1024 ^ 3)⟩
      (2 * 1024 ^ 3) (by decide) (by decide) rfl (by decide) (by decide)).trans
    (by decide)

/-! Section: Claim C3 -/

/-- Claim C3, counterexample: the options contain `"-t"`, yet with a
requested memory ceiling `cmdline` still appends the tokens
`"-m", "2048"` — the two limit checks are independent, so the presence of a
time option does not suppress the memory token. -/
theorem time_option_memory_counterexample :
    (["-t", "10"].contains "-t" = true) ∧
    cmdline "vampire" ["-t", "10"] ⟨[]⟩ ⟨none, some (2 * 1024 ^ 3)⟩
      = some ["vampire", "-t", "10", "-m", "2048"] := by
  constructor
  · decide
  · decide

/-- Claim C3 (amended): if the options already contain `"-t"` or
`"--time_limit"`, `cmdline` appends no further time token (the time step is
the identity); the memory token is governed solely by the presence of
`"-m"`/`"--memory_limit"` and may still be appended. -/
theorem time_option_no_time_token_amended (exe : String) (opts : List String)
    (t : Task) (r : ResourceLimits)
    (h : opts.contains "-t" = true ∨ opts.contains "--time_limit" = true)
    (hf : t.input_files.length ≤ 1) :
    timeStep opts r = opts ∧
    cmdline exe opts t r = some ([exe] ++ memStep opts r ++ t.input_files) := by
  have ht := timeStep_no_time opts r h
  refine ⟨ht, ?_⟩
  unfold cmdline
  rw [if_pos hf, ht]

/-- Claim C3 witness: with `"-t"` among the options and no memory ceiling,
nothing is appended. -/
theorem time_option_no_time_token_amended_witness :
    timeStep ["-t", "10"] ⟨some 5, none⟩ = ["-t", "10"] ∧
    cmdline "vampire" ["-t", "10"] ⟨[]⟩ ⟨some 5, none⟩
      = some ["vampire", "-t", "10"] := by
  have h := time_option_no_time_token_amended "vampire" ["-t", "10"] ⟨[]⟩
    ⟨some 5, none⟩ (Or.inl (by decide)) (by decide)
  exact ⟨h.1, h.2.trans (by decide)⟩

/-! Section: Claim C6 -/

/-- Claim C6: if the options contain neither `"-t"` nor `"--time_limit"`,
the time step appends exactly `"-t", "0"` when no wall-clock limit is
requested, and exactly `"-t", "<seconds>s"` when one is, immediately after
the user options and before any memory token. -/
theorem cmdline_time_tokens (exe : String) (opts : List String) (t : Task)
    (r : ResourceLimits)
    (h1 : opts.contains "-t" = false) (h2 : opts.contains "--time_limit" = false)
    (hf : t.input_files.length ≤ 1) :
    (r.walltime = none →
      cmdline exe opts t r
        = some ([exe] ++ memStep (opts ++ ["-t", "0"]) r ++ t.input_files)) ∧
    (∀ w, r.walltime = some w →
      cmdline exe opts t r
        = some ([exe] ++ memStep (opts ++ ["-t", toString w ++ "s"]) r ++ t.input_files)) := by
  constructor
  · intro hw
    unfold cmdline
    rw [if_pos hf, timeStep_none opts r h1 h2 hw]
  · intro w hw
    unfold cmdline
    rw [if_pos hf, timeStep_some opts r w h1 h2 hw]

/-- Claim C6 witness: no wall-clock limit gives `-t 0`; a 30-second limit
gives `-t 30s`. -/
theorem cmdline_time_tokens_witness :
    cmdline "vampire" [] ⟨["f.p"]⟩ ⟨none, none⟩
      = some ["vampire", "-t", "0", "f.p"] ∧
    cmdline "vampire" [] ⟨["f.p"]⟩ ⟨some 30, none⟩
      = some ["vampire", "-t", "30s", "f.p"] :=
  ⟨((cmdline_time_tokens "vampire" [] ⟨["f.p"]⟩ ⟨none, none⟩ (by decide) (by decide)
      (by decide)).1 rfl).trans (by decide),
   ((cmdline_time_tokens "vampire" [] ⟨["f.p"]⟩ ⟨some 30, none⟩ (by decide) (by decide)
      (by decide)).2 30 rfl).trans (by decide)⟩

/-! Section: Claim C7 -/

/-- Claim C7: `cmdline` fails (the Python `assert`, modelled as `none`) for
every task with two or more input files, before any command line is built,
and succeeds for every task with zero or one input file. -/
theorem cmdline_input_file_guard (exe : String) (opts : List String) (t : Task)
    (r : ResourceLimits) :
    (2 ≤ t.input_files.length → cmdline exe opts t r = none) ∧
    (t.input_files.length ≤ 1 →
      cmdline exe opts t r
        = some ([exe] ++ memStep (timeStep opts r) r ++ t.input_files)) := by
  constructor
  · intro h
    unfold cmdline
    rw [if_neg (by omega)]
  · intro h
    unfold cmdline
    rw [if_pos h]

/-- Claim C7 witness: two input files fail the precondition, one input file
builds a command line. -/
theorem cmdline_input_file_guard_witness :
    cmdline "vampire" [] ⟨["a.p", "b.p"]⟩ ⟨none, none⟩ = none ∧
    cmdline "vampire" [] ⟨["a.p"]⟩ ⟨none, none⟩
      = some ["vampire", "-t", "0", "a.p"] :=
  ⟨(cmdline_input_file_guard "vampire" [] ⟨["a.p", "b.p"]⟩ ⟨none, none⟩).1 (by decide),
   ((cmdline_input_file_guard "vampire" [] ⟨["a.p"]⟩ ⟨none, none⟩).2 (by decide)).trans
     (by decide)⟩

/-! Section: Claim C8 -/

/-- Claim C8: for every valid input (at most one file), the returned token
list is exactly the executable, the user options unchanged (as a verbatim
initial block — nothing removed, reordered or duplicated), the appended
limit-token blocks, and the input files, in that order; each appended block
is empty or of the fixed limit-token shape. -/
theorem cmdline_token_order (exe : String) (opts : List String) (t : Task)
    (r : ResourceLimits) (hf : t.input_files.length ≤ 1) :
    ∃ a b,
      (a = [] ∨ a = ["-t", "0"] ∨
        ∃ w, r.walltime = some w ∧ a = ["-t", toString w ++ "s"]) ∧
      (b = [] ∨ ∃ m, r.memory = some m ∧ b = ["-m", toString (pyMemoryMb m)]) ∧
      timeStep opts r = opts ++ a ∧
      memStep (opts ++ a) r = opts ++ a ++ b ∧
      cmdline exe opts t r = some ([exe] ++ opts ++ a ++ b ++ t.input_files) := by
  obtain ⟨a, ha, haspec⟩ := timeStep_append opts r
  obtain ⟨b, hb, hbspec⟩ := memStep_append (opts ++ a) r
  refine ⟨a, b, haspec, hbspec, ha, hb, ?_⟩
  unfold cmdline
  rw [if_pos hf, ha, hb]
  simp [List.append_assoc]

/-- Claim C8 witness: the decomposition at a concrete invocation. -/
theorem cmdline_token_order_witness :
    ∃ a b,
      (a = [] ∨ a = ["-t", "0"] ∨
        ∃ w, (⟨none, none⟩ : ResourceLimits).walltime = some w ∧
          a = ["-t", toString w ++ "s"]) ∧
      (b = [] ∨ ∃ m, (⟨none, none⟩ : ResourceLimits).memory = some m ∧
        b = ["-m", toString (pyMemoryMb m)]) ∧
      timeStep ["--mode", "casc"] ⟨none, none⟩ = ["--mode", "casc"] ++ a ∧
      memStep (["--mode", "casc"] ++ a) ⟨none, none⟩ = ["--mode", "casc"] ++ a ++ b ∧
      cmdline "vampire" ["--mode", "casc"] ⟨["a.p"]⟩ ⟨none, none⟩
        = some (["vampire"] ++ ["--mode", "casc"] ++ a ++ b ++ ["a.p"]) :=
  cmdline_token_order "vampire" ["--mode", "casc"] ⟨["a.p"]⟩ ⟨none, none⟩ (by decide)

/-! Section: Output-text lemmas -/

/-- A newline-free character list is an initial segment of
`l ++ '\n' :: rest` exactly when it is an initial segment of `l`. -/
theorem isPrefixOf_append_newline :
    ∀ (p l rest : List Char), '\n' ∉ p →
      List.isPrefixOf p (l ++ '\n' :: rest) = List.isPrefixOf p l := by
  intro p
  induction p with
  | nil =>
    intro l rest hp
    simp [List.isPrefixOf]
  | cons a p ih =>
    intro l rest hp
    have ha : a ≠ '\n' := fun h => hp (by simp [h])
    have hp' : '\n' ∉ p := fun h => hp (by simp [h])
    cases l with
    | nil => simp [List.isPrefixOf, ha]
    | cons b l =>
      simp only [List.cons_append, List.isPrefixOf, List.append_eq]
      rw [ih l rest hp']

/-- For a newline-free pattern, a Python `startswith` check on the joined
output text is the same as the check on the output's first line. -/
theorem pyStartsWith_outputText (lines : List String) (p : String)
    (hp : '\n' ∉ p.data) :
    pyStartsWith (outputText lines) p = pyStartsWith (lines.headD "") p := by
  cases lines with
  | nil => rfl
  | cons l ls =>
    cases ls with
    | nil => rfl
    | cons l2 ls2 =>
      show List.isPrefixOf p.data (joinLines (l :: l2 :: ls2)) = _
      rw [show joinLines (l :: l2 :: ls2) = l.data ++ '\n' :: joinLines (l2 :: ls2)
        from rfl]
      rw [isPrefixOf_append_newline p.data l.data (joinLines (l2 :: ls2)) hp]
      rfl

/-! Section: Claim C4 -/

/-- The decision procedure for abnormal exits exactly as the claim words it:
first an SZS `"Timeout"` check, then the exit-code-4 parsing-error check on
the output's first line, then the exit-code-1 termination-reason checks
(`["Time limit"]` giving `TIMEOUT`, either incompleteness reason giving
`"Incomplete"`), and otherwise the generic error verdict. -/
def abnormalSpec (run : Run) : String :=
  if get_szs_status run.output = some "Timeout" then "TIMEOUT"
  else if run.exitCode = some 4 ∧ pyStartsWith (run.output.headD "") "Parsing error" then
    "Parsing error"
  else if run.exitCode = some 1 ∧
      get_other_termination_reasons run.output = ["Time limit"] then
    "TIMEOUT"
  else if run.exitCode = some 1 ∧
      (get_other_termination_reasons run.output
          = ["Refutation not found, incomplete strategy"] ∨
        get_other_termination_reasons run.output
          = ["Refutation not found, non-redundant clauses discarded"]) then
    "Incomplete"
  else RESULT_ERROR

/-- Claim C4: for every run with an abnormal (truthy) exit status,
`determine_result` follows exactly the first-match-wins order of the claim,
captured by `abnormalSpec`. -/
theorem determine_result_abnormal_order (run : Run)
    (h : exitTruthy run.exitCode = true) :
    determine_result run = abnormalSpec run := by
  simp only [determine_result, abnormalSpec, h, if_true]
  simp only [pyStartsWith_outputText run.output "Parsing error" (by decide)]
  split_ifs <;> tauto

/-- Claim C4 witness: exit code 1 with a single `"Time limit"` termination
reason classifies as `TIMEOUT`. -/
theorem determine_result_abnormal_order_witness :
    exitTruthy (some 1) = true ∧
    determine_result ⟨some 1, ["% Termination reason: Time limit"]⟩
      = abnormalSpec ⟨some 1, ["% Termination reason: Time limit"]⟩ ∧
    abnormalSpec ⟨some 1, ["% Termination reason: Time limit"]⟩ = "TIMEOUT" :=
  ⟨by decide, determine_result_abnormal_order _ (by decide), by decide⟩

/-! Section: Claim C5 -/

/-- The classification for normal exits exactly as the claim words it:
`RESULT_TRUE_PROP` for the three unsatisfiability statuses,
`RESULT_FALSE_PROP` for the two satisfiability statuses, and
`RESULT_UNKNOWN` otherwise (including an absent status). -/
def normalSpec (run : Run) : String :=
  if get_szs_status run.output = some "ContradictoryAxioms" ∨
      get_szs_status run.output = some "Theorem" ∨
      get_szs_status run.output = some "Unsatisfiable" then
    RESULT_TRUE_PROP
  else if get_szs_status run.output = some "CounterSatisfiable" ∨
      get_szs_status run.output = some "Satisfiable" then
    RESULT_FALSE_PROP
  else
    RESULT_UNKNOWN

/-- Claim C5: for every run with a normal (falsy) exit status,
`determine_result` classifies exactly as `normalSpec` does. -/
theorem determine_result_normal_classification (run : Run)
    (h : exitTruthy run.exitCode = false) :
    determine_result run = normalSpec run := by
  simp only [determine_result, normalSpec, h, Bool.false_eq_true, if_false]
  cases hst : get_szs_status run.output with
  | none => simp [pyMem, hst]
  | some s =>
    have hu : SZS_UNSAT.contains s = true ↔
        (s = "ContradictoryAxioms" ∨ s = "Theorem" ∨ s = "Unsatisfiable") := by
      simp [SZS_UNSAT]
    have hv : SZS_SAT.contains s = true ↔
        (s = "CounterSatisfiable" ∨ s = "Satisfiable") := by
      simp [SZS_SAT]
    simp only [hst, pyMem, Option.some.injEq]
    split_ifs <;> tauto

/-- Claim C5 witness: a normal exit with a unique `Theorem` status gives
`RESULT_TRUE_PROP`. -/
theorem determine_result_normal_classification_witness :
    exitTruthy none = false ∧
    determine_result ⟨none, ["% SZS status Theorem for x"]⟩
      = normalSpec ⟨none, ["% SZS status Theorem for x"]⟩ ∧
    normalSpec ⟨none, ["% SZS status Theorem for x"]⟩ = RESULT_TRUE_PROP :=
  ⟨by decide, determine_result_normal_classification _ (by decide), by decide⟩

/-! Section: Claim C9 -/

/-- Claim C9: `get_value_from_output` with identifier `"szs-status"` returns
the extracted SZS status when one was uniquely extracted, and the literal
placeholder `"--"` when the status is absent. -/
theorem get_value_szs_status (output : List String) :
    (∀ s, get_szs_status output = some s →
      get_value_from_output output "szs-status" = some s) ∧
    (get_szs_status output = none →
      get_value_from_output output "szs-status" = some "--") := by
  constructor
  · intro s hs
    have hne : s ≠ "" := get_szs_status_ne_empty output s hs
    simp [get_value_from_output, pyOrElse, hs, hne]
  · intro h
    simp [get_value_from_output, pyOrElse, h]

/-- Claim C9 witness: a unique status line is passed through, an output
without status lines gives `"--"`. -/
theorem get_value_szs_status_witness :
    get_value_from_output ["% SZS status Theorem for x"] "szs-status"
      = some "Theorem" ∧
    get_value_from_output ["no status here"] "szs-status" = some "--" :=
  ⟨(get_value_szs_status ["% SZS status Theorem for x"]).1 "Theorem" (by decide),
   (get_value_szs_status ["no status here"]).2 (by decide)⟩

/-! Section: Claim C10 -/

/-- Claim C10: `determine_result` is total (it is a Lean function, and the
embedding introduced no partiality: every indexing in the source is guarded)
and always returns one of exactly seven strings. -/
theorem determine_result_total_range (run : Run) :
    determine_result run = "TIMEOUT" ∨ determine_result run = "Parsing error" ∨
    determine_result run = "Incomplete" ∨ determine_result run = RESULT_ERROR ∨
    determine_result run = RESULT_TRUE_PROP ∨
    determine_result run = RESULT_FALSE_PROP ∨
    determine_result run = RESULT_UNKNOWN := by
  simp only [determine_result]
  split_ifs <;> tauto

end Vampire
